import Mathlib

/-!
Verification of the flight-management command-line tool (`main.py`).

The backing store is a SQLite database with five tables; we embed it as a
record of lists of rows.  Each handler of `main.py` becomes a Lean function
from the store (plus the operator's raw text inputs) to a new store and an
outcome value describing what was printed.  SQLite and the Python string
methods are external collaborators; the small helpers below model exactly
the fragments of their behaviour the handlers rely on (ASCII strip/upper,
`int()` parsing, `substr`, numeric affinity on comparisons).
-/

namespace FlightDB

/-- A row of the `destination` table
(`destination_id, iata_code, city, country, timezone, active`). -/
structure DestinationRow where
  destination_id : Nat
  iata_code : String
  city : String
  country : String
  timezone : String
  active : Nat
deriving DecidableEq, Repr

/-- A row of the `aircraft` table
(`aircraft_id, registration, model, seat_capacity, active`). -/
structure AircraftRow where
  aircraft_id : Nat
  registration : String
  model : String
  seat_capacity : Nat
  active : Nat
deriving DecidableEq, Repr

/-- A row of the `pilot` table (the columns `main.py` touches:
`pilot_id, first_name, last_name, license_no, active`). -/
structure PilotRow where
  pilot_id : Nat
  first_name : String
  last_name : String
  license_no : String
  active : Nat
deriving DecidableEq, Repr

/-- A row of the `flight` table (the columns `main.py` touches). `gate` is
nullable; `departure_dt`/`arrival_dt` are stored as `YYYY-MM-DD HH:MM` text. -/
structure FlightRow where
  flight_id : Nat
  flight_no : String
  origin_id : Nat
  destination_id : Nat
  aircraft_id : Nat
  departure_dt : String
  arrival_dt : String
  status : String
  gate : Option String
  tickets_sold : Int
deriving DecidableEq, Repr

/-- A row of the `pilot_assignment` table
(`assignment_id, flight_id, pilot_id, role`). -/
structure AssignmentRow where
  assignment_id : Nat
  flight_id : Nat
  pilot_id : Nat
  role : String
deriving DecidableEq, Repr

/-- The whole backing store: the five tables of the schema. -/
structure DB where
  destination : List DestinationRow
  aircraft : List AircraftRow
  pilot : List PilotRow
  flight : List FlightRow
  pilot_assignment : List AssignmentRow
deriving DecidableEq, Repr

/-! ### Models of the external string operations -/

/-- ASCII whitespace stripped by Python's `str.strip()`. -/
def isPyWS (c : Char) : Bool :=
  c == ' ' || c == '\t' || c == '\n' || c == '\x0d' || c == '\x0b' || c == '\x0c'

/-- Model of Python `str.strip()`: drop whitespace at both ends. -/
def pyStrip (s : String) : String :=
  ⟨((s.data.dropWhile isPyWS).reverse.dropWhile isPyWS).reverse⟩

/-- Model of Python `str.upper()` on the ASCII inputs this tool handles. -/
def pyUpper (s : String) : String :=
  ⟨s.data.map Char.toUpper⟩

/-- Value of a list of decimal digit characters. -/
def digitsVal (l : List Char) : Nat :=
  l.foldl (fun acc c => acc * 10 + (c.toNat - 48)) 0

/-- Model of Python `int(text)` on an already-stripped string: an optional
sign followed by at least one digit; anything else raises `ValueError`. -/
def pyInt (s : String) : Option Int :=
  match s.data with
  | [] => none
  | c :: rest =>
      if c = '-' then
        if rest ≠ [] ∧ rest.all Char.isDigit then some (-(digitsVal rest : Int)) else none
      else if c = '+' then
        if rest ≠ [] ∧ rest.all Char.isDigit then some (digitsVal rest : Int) else none
      else if (c :: rest).all Char.isDigit then some (digitsVal (c :: rest) : Int) else none

/-- Model of Python `str.isdigit()` on ASCII text: non-empty and all digits. -/
def pyIsDigit (s : String) : Bool :=
  !s.data.isEmpty && s.data.all Char.isDigit

/-- Leading sign of a numeric literal: consumes one `-` or `+`, returning
whether the value is negated and the remaining characters. -/
def parseSign (l : List Char) : Bool × List Char :=
  match l with
  | [] => (false, [])
  | c :: r => if c = '-' then (true, r) else if c = '+' then (false, r) else (false, c :: r)

/-- Attach a parsed sign to a digit value. -/
def applySign (neg : Bool) (n : Nat) : Int :=
  if neg then -(n : Int) else (n : Int)

/-- The exponent tail of a numeric literal (after `e`/`E`): an optional sign
and at least one digit consuming the rest of the text; on success the
mantissa `m` keeps its value and `e0` is adjusted by the exponent. -/
def parseExpPart (m : Int) (e0 : Int) (l : List Char) : Option (Int × Int) :=
  let (eneg, l₁) := parseSign l
  let ed := l₁.takeWhile Char.isDigit
  let rest := l₁.dropWhile Char.isDigit
  if ed = [] ∨ rest ≠ [] then none
  else some (m, e0 + (if eneg then -(digitsVal ed : Int) else (digitsVal ed : Int)))

/-- Model of SQLite's test for a well-formed numeric literal (as in its
numeric-affinity conversion of bound TEXT): optional sign, digits with an
optional decimal point and optional exponent, at least one mantissa digit,
nothing left over.  The result `(m, e)` represents the exact value
`m * 10 ^ e`. -/
def sqliteParseNum (l : List Char) : Option (Int × Int) :=
  let (neg, l₁) := parseSign l
  let ip := l₁.takeWhile Char.isDigit
  let l₂ := l₁.dropWhile Char.isDigit
  match l₂ with
  | [] => if ip = [] then none else some (applySign neg (digitsVal ip), 0)
  | '.' :: r =>
      let fp := r.takeWhile Char.isDigit
      let l₃ := r.dropWhile Char.isDigit
      if ip = [] ∧ fp = [] then none
      else
        match l₃ with
        | [] => some (applySign neg (digitsVal (ip ++ fp)), -(fp.length : Int))
        | c :: r₂ =>
            if c = 'e' ∨ c = 'E' then
              parseExpPart (applySign neg (digitsVal (ip ++ fp))) (-(fp.length : Int)) r₂
            else none
  | c :: r =>
      if c = 'e' ∨ c = 'E' then
        if ip = [] then none else parseExpPart (applySign neg (digitsVal ip)) 0 r
      else none

/-- SQLite's numeric-affinity view of an (already stripped) TEXT value:
`some (m, e)` with value `m * 10 ^ e` when the text is a well-formed
numeric literal (integer or real, e.g. `12`, `-3`, `12.0`, `1.2e1`),
`none` when it stays TEXT. -/
def sqliteTextToNum (s : String) : Option (Int × Int) :=
  sqliteParseNum s.data

/-- Whether the TEXT parameter `t` matches the INTEGER key `id` under
SQLite comparison affinity (`WHERE flight_id = ?` with a string bound): a
well-formed numeric literal matches exactly the key with its numeric value
(so `"12"`, `"12.0"` and `"1.2e1"` all match key 12), any other text
compares unequal to every integer. -/
def textMatchesId (t : String) (id : Nat) : Bool :=
  match sqliteTextToNum t with
  | some (m, e) =>
      if 0 ≤ e then m * 10 ^ e.toNat == (id : Int)
      else m == (id : Int) * 10 ^ (-e).toNat
  | none => false

/-- Model of SQLite `substr(s, 1, n)`: the first `n` characters. -/
def strTake (n : Nat) (s : String) : String :=
  ⟨s.data.take n⟩

/-! ### The shared query builder (`run_flight_query`) -/

/-- One projected row of the flight-listing query: `SELECT f.flight_id,
f.flight_no, o.iata_code AS origin, d.iata_code AS destination,
f.departure_dt, f.status`. -/
structure FlightQueryRow where
  flight_id : Nat
  flight_no : String
  origin : String
  destination : String
  departure_dt : String
  status : String
deriving DecidableEq, Repr

/-- The double join `flight f JOIN destination o ON o.destination_id =
f.origin_id JOIN destination d ON d.destination_id = f.destination_id`
with the projection of `run_flight_query`. -/
def flightJoin (db : DB) : List FlightQueryRow :=
  db.flight.flatMap fun f =>
    (db.destination.filter fun o => o.destination_id == f.origin_id).flatMap fun o =>
      (db.destination.filter fun d => d.destination_id == f.destination_id).map fun d =>
        { flight_id := f.flight_id, flight_no := f.flight_no, origin := o.iata_code,
          destination := d.iata_code, departure_dt := f.departure_dt, status := f.status }

/-- One entry of the `conditions` list built by `run_flight_query`:
`d.iata_code = ?`, `f.status = ?`, or `substr(f.departure_dt,1,10) = ?`,
each with its bound parameter. -/
inductive FilterCond where
  | destEq (v : String)
  | statusEq (v : String)
  | dateEq (v : String)
deriving DecidableEq, Repr

/-- The `conditions` list of `run_flight_query`: starting from the empty
list, each of the three criteria appends its clause when non-empty, in
program order (destination, then status, then date). -/
def buildConditions (dest status date : String) : List FilterCond :=
  let conditions : List FilterCond := []
  let conditions := if dest ≠ "" then conditions ++ [FilterCond.destEq dest] else conditions
  let conditions := if status ≠ "" then conditions ++ [FilterCond.statusEq status] else conditions
  let conditions := if date ≠ "" then conditions ++ [FilterCond.dateEq date] else conditions
  conditions

/-- Truth of one WHERE clause on one joined row. -/
def condSat (r : FlightQueryRow) : FilterCond → Bool
  | FilterCond.destEq v => r.destination == v
  | FilterCond.statusEq v => r.status == v
  | FilterCond.dateEq v => strTake 10 r.departure_dt == v

/-- Lexicographic comparison of text as character lists: the order SQLite's
default BINARY collation gives `ORDER BY` on these ASCII timestamps. -/
def lexLe : List Char → List Char → Bool
  | [], _ => true
  | _ :: _, [] => false
  | c :: cs, d :: ds => if c < d then true else if d < c then false else lexLe cs ds

theorem lexLe_total : ∀ l₁ l₂ : List Char, lexLe l₁ l₂ = true ∨ lexLe l₂ l₁ = true
  | [], _ => Or.inl rfl
  | _ :: _, [] => Or.inr rfl
  | c :: cs, d :: ds => by
      by_cases hcd : c < d
      · exact Or.inl (by simp [lexLe, hcd])
      · by_cases hdc : d < c
        · exact Or.inr (by simp [lexLe, hdc])
        · rcases lexLe_total cs ds with h | h
          · exact Or.inl (by simp [lexLe, hcd, hdc, h])
          · exact Or.inr (by simp [lexLe, hcd, hdc, h])

theorem lexLe_trans : ∀ {l₁ l₂ l₃ : List Char},
    lexLe l₁ l₂ = true → lexLe l₂ l₃ = true → lexLe l₁ l₃ = true
  | [], _, _, _, _ => rfl
  | _ :: _, [], _, h₁, _ => by simp [lexLe] at h₁
  | _ :: _, _ :: _, [], _, h₂ => by simp [lexLe] at h₂
  | a :: as, b :: bs, c :: cs, h₁, h₂ => by
      simp only [lexLe] at h₁ h₂ ⊢
      rcases lt_trichotomy a b with hab | hab | hab
      · rcases lt_trichotomy b c with hbc | hbc | hbc
        · simp [lt_trans hab hbc]
        · subst hbc; simp [hab]
        · rw [if_neg (lt_asymm hbc), if_pos hbc] at h₂; cases h₂
      · subst hab
        rw [if_neg (lt_irrefl a), if_neg (lt_irrefl a)] at h₁
        rcases lt_trichotomy a c with hac | hac | hac
        · simp [hac]
        · subst hac
          rw [if_neg (lt_irrefl a), if_neg (lt_irrefl a)] at h₂ ⊢
          exact lexLe_trans h₁ h₂
        · rw [if_neg (lt_asymm hac), if_pos hac] at h₂; cases h₂
      · rw [if_neg (lt_asymm hab), if_pos hab] at h₁; cases h₁

/-- `ORDER BY f.departure_dt`: rows compared by their departure text. -/
def depLe (a b : FlightQueryRow) : Prop :=
  lexLe a.departure_dt.data b.departure_dt.data = true

instance : DecidableRel depLe :=
  fun a b => inferInstanceAs (Decidable (lexLe a.departure_dt.data b.departure_dt.data = true))

instance : IsTotal FlightQueryRow depLe :=
  ⟨fun a b => lexLe_total a.departure_dt.data b.departure_dt.data⟩

instance : IsTrans FlightQueryRow depLe :=
  ⟨fun _ _ _ hab hbc => lexLe_trans hab hbc⟩

/-- `run_flight_query(conn, dest, status, date)`: the joined rows, kept when
they satisfy every appended condition (no WHERE at all when the list is
empty), ordered ascending by departure timestamp. -/
def run_flight_query (db : DB) (dest status date : String) : List FlightQueryRow :=
  let conds := buildConditions dest status date
  List.insertionSort depLe ((flightJoin db).filter fun r => conds.all (condSat r))

/-! ### Mutation operations -/

/-- An uncaught Python exception escaping a handler (crashing the program,
since the menu loop wraps no handler in a `try`). -/
inductive PyError where
  | valueError
deriving DecidableEq, Repr

/-- Modelled from the spec: `schema.sql` is not under `src/`, so the rowid
assignment of the flight table's INTEGER PRIMARY KEY is modelled as SQLite's
default, one more than the largest existing key. -/
def freshFlightId (db : DB) : Nat :=
  (db.flight.map (fun f => f.flight_id)).foldr max 0 + 1

/-- Modelled from the spec: the `pilot_assignment` primary key, assigned as
one more than the largest existing key (SQLite default, schema not in src). -/
def freshAssignmentId (db : DB) : Nat :=
  (db.pilot_assignment.map (fun a => a.assignment_id)).foldr max 0 + 1

inductive AddOutcome where
  | ok
  | refNotFound
deriving DecidableEq, Repr

/-- `add_flight(conn)`: normalizes the typed fields exactly as the handler
does (`strip`/`upper`), defaults blank status to `"Scheduled"`, blank gate
to NULL and blank tickets to `0`; a non-blank non-integer tickets entry is
`int(...)` with no surrounding `try`, i.e. an uncaught `ValueError`.  Then
the three code lookups run; if any returns no row the handler prints the
reference error and returns without inserting, otherwise one flight row is
inserted and committed. -/
def add_flight (db : DB)
    (flight_no_in origin_in dest_in reg_in dep_in arr_in status_in gate_in tickets_in :
      String) : Except PyError (DB × AddOutcome) :=
  let flight_no := pyUpper (pyStrip flight_no_in)
  let origin := pyUpper (pyStrip origin_in)
  let dest := pyUpper (pyStrip dest_in)
  let reg := pyUpper (pyStrip reg_in)
  let dep := pyStrip dep_in
  let arr := pyStrip arr_in
  let status0 := pyStrip status_in
  let status := if status0 = "" then "Scheduled" else status0
  let gate0 := pyUpper (pyStrip gate_in)
  let gate : Option String := if gate0 = "" then none else some gate0
  let tickets_text := pyStrip tickets_in
  match (if tickets_text = "" then some (0 : Int) else pyInt tickets_text) with
  | none => Except.error PyError.valueError
  | some tickets_sold =>
      let origin_row := db.destination.find? fun r => r.iata_code == origin
      let dest_row := db.destination.find? fun r => r.iata_code == dest
      let aircraft_row := db.aircraft.find? fun r => r.registration == reg
      match origin_row, dest_row, aircraft_row with
      | some o, some d, some a =>
          let newRow : FlightRow :=
            { flight_id := freshFlightId db, flight_no := flight_no,
              origin_id := o.destination_id, destination_id := d.destination_id,
              aircraft_id := a.aircraft_id, departure_dt := dep, arrival_dt := arr,
              status := status, gate := gate, tickets_sold := tickets_sold }
          Except.ok ({ db with flight := db.flight ++ [newRow] }, AddOutcome.ok)
      | _, _, _ => Except.ok (db, AddOutcome.refNotFound)

inductive UpdOutcome where
  | ok
  | blankStatus
deriving DecidableEq, Repr

/-- `update_flight_status(conn)`: rejects a blank status, then runs
`UPDATE flight SET status=? WHERE flight_id=?` with the identifier bound as
text (no numeric validation), commits, and prints `OK: Status updated.` -/
def update_flight_status (db : DB) (flight_id_in new_status_in : String) : DB × UpdOutcome :=
  let flight_id := pyStrip flight_id_in
  let new_status := pyStrip new_status_in
  if new_status = "" then (db, UpdOutcome.blankStatus)
  else
    ({ db with flight := db.flight.map fun f =>
        if textMatchesId flight_id f.flight_id then { f with status := new_status } else f },
      UpdOutcome.ok)

inductive DelOutcome where
  | cancelled
  | ok
deriving DecidableEq, Repr

/-- `delete_flight(conn)`: unless the stripped, upper-cased confirmation is
exactly `"YES"` it prints `Delete cancelled.` and returns without issuing a
statement; otherwise it runs `DELETE FROM flight WHERE flight_id=?` with the
identifier bound as text, commits and prints `OK: Flight deleted.` -/
def delete_flight (db : DB) (flight_id_in confirm_in : String) : DB × DelOutcome :=
  let flight_id := pyStrip flight_id_in
  let confirm := pyUpper (pyStrip confirm_in)
  if confirm ≠ "YES" then (db, DelOutcome.cancelled)
  else
    ({ db with flight := db.flight.filter fun f => !(textMatchesId flight_id f.flight_id) },
      DelOutcome.ok)

inductive AssignOutcome where
  | invalidId
  | flightNotFound
  | pilotNotFoundOrInactive
  | ok
deriving DecidableEq, Repr

/-- `assign_pilot_to_flight(conn)`: rejects a non-digit flight identifier
(`str.isdigit`), resolves the flight, then the pilot by license number with
the `active=1` constraint, reporting the two not-found conditions distinctly,
and finally inserts one `pilot_assignment` row and commits. -/
def assign_pilot_to_flight (db : DB) (flight_id_in license_in role_in : String) :
    DB × AssignOutcome :=
  let flight_id := pyStrip flight_id_in
  if !(pyIsDigit flight_id) then (db, AssignOutcome.invalidId)
  else
    match db.flight.find? fun f => textMatchesId flight_id f.flight_id with
    | none => (db, AssignOutcome.flightNotFound)
    | some _ =>
        let license_no := pyUpper (pyStrip license_in)
        let role := pyStrip role_in
        match db.pilot.find? fun p => p.license_no == license_no && p.active == 1 with
        | none => (db, AssignOutcome.pilotNotFoundOrInactive)
        | some p =>
            ({ db with pilot_assignment := db.pilot_assignment ++
                [{ assignment_id := freshAssignmentId db,
                   flight_id := digitsVal flight_id.data,
                   pilot_id := p.pilot_id, role := role }] },
              AssignOutcome.ok)

inductive DestOutcome where
  | invalidFlag
  | notFound
  | ok
deriving DecidableEq, Repr

/-- The affected-row count of `UPDATE destination SET active=? WHERE
iata_code=?`: the number of destination rows whose code matches. -/
def destRowcount (db : DB) (iata : String) : Nat :=
  db.destination.countP fun r => r.iata_code == iata

/-- `update_destination_active(conn)`: validates the flag is literally `"0"`
or `"1"`, runs the UPDATE by code, commits, and reports
`ERROR: Destination not found.` exactly when `cur.rowcount` is zero. -/
def update_destination_active (db : DB) (iata_in active_in : String) : DB × DestOutcome :=
  let iata := pyUpper (pyStrip iata_in)
  let active := pyStrip active_in
  if active ≠ "0" ∧ active ≠ "1" then (db, DestOutcome.invalidFlag)
  else
    let v : Nat := if active = "1" then 1 else 0
    let newTable := db.destination.map fun r =>
      if r.iata_code == iata then { r with active := v } else r
    if destRowcount db iata = 0 then ({ db with destination := newTable }, DestOutcome.notFound)
    else ({ db with destination := newTable }, DestOutcome.ok)

/-! ### Concrete fixtures (the shapes seeded by `populate_db.py`) -/

def dLHR : DestinationRow := ⟨1, "LHR", "London", "United Kingdom", "Europe/London", 1⟩

def dCDG : DestinationRow := ⟨2, "CDG", "Paris", "France", "Europe/Paris", 1⟩

def pInactive : PilotRow := ⟨1, "Amelia", "Wright", "LIC-UK-1001", 0⟩

def f1 : FlightRow :=
  ⟨1, "AX200", 1, 2, 1, "2026-02-03 06:00", "2026-02-03 08:00", "Scheduled", none, 0⟩

def f2 : FlightRow :=
  ⟨2, "AX201", 2, 1, 1, "2026-02-01 09:00", "2026-02-01 11:00", "Delayed", none, 0⟩

def db0 : DB := ⟨[dLHR, dCDG], [], [pInactive], [f1, f2], []⟩

def r1 : FlightQueryRow := ⟨1, "AX200", "LHR", "CDG", "2026-02-03 06:00", "Scheduled"⟩

/-! ### Helper lemmas -/

theorem map_id_of_fixed {α : Type} (f : α → α) :
    ∀ l : List α, (∀ a ∈ l, f a = a) → l.map f = l
  | [], _ => rfl
  | a :: l, h => by
      simp only [List.map_cons, h a (List.mem_cons_self a l), List.cons.injEq, true_and]
      exact map_id_of_fixed f l fun b hb => h b (List.mem_cons_of_mem a hb)

theorem zip_map_self {α : Type} (f : α → α) :
    ∀ l : List α, l.zip (l.map f) = l.map fun a => (a, f a)
  | [] => rfl
  | a :: l => by simp [zip_map_self f l]

theorem all_takeWhile_dropWhile {α : Type} (p : α → Bool) :
    ∀ l : List α, l.all p = true → l.takeWhile p = l ∧ l.dropWhile p = []
  | [], _ => ⟨rfl, rfl⟩
  | a :: l, h => by
      simp only [List.all_cons, Bool.and_eq_true] at h
      constructor
      · simp [List.takeWhile_cons, h.1, (all_takeWhile_dropWhile p l h.2).1]
      · simp [List.dropWhile_cons, h.1, (all_takeWhile_dropWhile p l h.2).2]

theorem sqliteTextToNum_of_isDigit {s : String} (h : pyIsDigit s = true) :
    sqliteTextToNum s = some ((digitsVal s.data : Int), 0) := by
  unfold pyIsDigit at h
  unfold sqliteTextToNum sqliteParseNum
  cases hd : s.data with
  | nil => rw [hd] at h; simp at h
  | cons c rest =>
      rw [hd] at h
      simp only [List.isEmpty_cons, Bool.not_false, Bool.true_and, List.all_cons,
        Bool.and_eq_true] at h
      have hc1 : c ≠ '-' := by intro he; rw [he] at h; exact absurd h.1 (by decide)
      have hc2 : c ≠ '+' := by intro he; rw [he] at h; exact absurd h.1 (by decide)
      have hall : (c :: rest).all Char.isDigit = true := by
        simp [List.all_cons, h.1, h.2]
      obtain ⟨htw, hdw⟩ := all_takeWhile_dropWhile Char.isDigit (c :: rest) hall
      simp [parseSign, hc1, hc2, htw, hdw, applySign]

theorem pyIsDigit_false_of_sqlite_none {s : String} (h : sqliteTextToNum s = none) :
    pyIsDigit s = false := by
  by_contra hb
  rw [sqliteTextToNum_of_isDigit (Bool.not_eq_false (pyIsDigit s) ▸ hb)] at h
  cases h

theorem mem_run_flight_query {db : DB} {dest status date : String} {r : FlightQueryRow} :
    r ∈ run_flight_query db dest status date ↔
      r ∈ flightJoin db ∧
      (dest = "" ∨ r.destination = dest) ∧
      (status = "" ∨ r.status = status) ∧
      (date = "" ∨ strTake 10 r.departure_dt = date) := by
  simp only [run_flight_query, List.mem_insertionSort, List.mem_filter]
  apply and_congr_right
  intro _
  by_cases hd : dest = "" <;> by_cases hs : status = "" <;> by_cases ht : date = "" <;>
    simp [buildConditions, hd, hs, ht, condSat]

/-! ### Claims -/

/-- C1: for every stored (joined) flight row and non-empty date criterion,
the query with only the date filter returns the row exactly when the row is
returned at all (no filters) and the first 10 characters of its departure
timestamp equal the criterion. -/
theorem C1_date_filter_matches_calendar_day (db : DB) (date : String) (hdate : date ≠ "")
    (r : FlightQueryRow) :
    r ∈ run_flight_query db "" "" date ↔
      r ∈ run_flight_query db "" "" "" ∧ strTake 10 r.departure_dt = date := by
  rw [mem_run_flight_query, mem_run_flight_query]
  simp [hdate]

/-- C1 witness: the flight departing `2026-02-03 06:00` matches the date
filter `2026-02-03` and does not match `2026-02-04`. -/
theorem C1_witness :
    r1 ∈ run_flight_query db0 "" "" "2026-02-03" ∧
      r1 ∉ run_flight_query db0 "" "" "2026-02-04" := by
  constructor
  · exact (C1_date_filter_matches_calendar_day db0 "2026-02-03" (by decide) r1).mpr
      ⟨by decide, by decide⟩
  · intro h
    exact absurd ((C1_date_filter_matches_calendar_day db0 "2026-02-04" (by decide) r1).mp h).2
      (by decide)

/-- C2: the query builder's condition list holds exactly one clause per
non-empty criterion — nothing (no `1=1` stand-in) for a blank one — and the
clauses appear in the fixed order destination, status, date. -/
theorem C2_clauses_exactly_nonempty_in_fixed_order (dest status date : String) :
    buildConditions dest status date =
      (if dest = "" then [] else [FilterCond.destEq dest]) ++
        ((if status = "" then [] else [FilterCond.statusEq status]) ++
          (if date = "" then [] else [FilterCond.dateEq date])) := by
  by_cases hd : dest = "" <;> by_cases hs : status = "" <;> by_cases ht : date = "" <;>
    simp [buildConditions, hd, hs, ht]

/-- C3: for every filter combination, the rows produced by the query builder
are non-decreasing by departure timestamp. -/
theorem C3_results_sorted_by_departure (db : DB) (dest status date : String) :
    List.Sorted depLe (run_flight_query db dest status date) :=
  List.sorted_insertionSort depLe _

/-- C4: every row returned with all criteria applied is also returned when
any single criterion is removed (left blank). -/
theorem C4_filters_monotone (db : DB) (dest status date : String) (r : FlightQueryRow)
    (h : r ∈ run_flight_query db dest status date) :
    r ∈ run_flight_query db "" status date ∧
      r ∈ run_flight_query db dest "" date ∧
      r ∈ run_flight_query db dest status "" := by
  rw [mem_run_flight_query] at h
  obtain ⟨hj, h1, h2, h3⟩ := h
  exact ⟨mem_run_flight_query.mpr ⟨hj, Or.inl rfl, h2, h3⟩,
    mem_run_flight_query.mpr ⟨hj, h1, Or.inl rfl, h3⟩,
    mem_run_flight_query.mpr ⟨hj, h1, h2, Or.inl rfl⟩⟩

/-- C4 witness: a row matching destination CDG, status Scheduled and date
2026-02-03 stays in the result after dropping any one of the three. -/
theorem C4_witness :
    r1 ∈ run_flight_query db0 "CDG" "Scheduled" "2026-02-03" ∧
      (r1 ∈ run_flight_query db0 "" "Scheduled" "2026-02-03" ∧
        r1 ∈ run_flight_query db0 "CDG" "" "2026-02-03" ∧
        r1 ∈ run_flight_query db0 "CDG" "Scheduled" "") :=
  ⟨by decide, C4_filters_monotone db0 "CDG" "Scheduled" "2026-02-03" r1 (by decide)⟩

/-- C5 counterexample: an in-scope add-flight input (the aircraft
registration resolves to no row) whose tickets-sold text is not an integer
crashes at `int()` before the lookups run, so no reference error is
reported — refuting the unqualified claim. -/
theorem C5_counterexample_crash_preempts_reference_error :
    db0.aircraft.find? (fun r => r.registration == pyUpper (pyStrip "G-AX09")) = none ∧
      add_flight db0 "AX998" "LHR" "CDG" "G-AX09" "2026-02-05 06:00" "2026-02-05 08:00"
        "" "" "ten" = Except.error PyError.valueError :=
  ⟨rfl, rfl⟩

/-- C5 (amended): provided the tickets-sold entry is blank or parses as an
integer, when the typed origin code, destination code or aircraft
registration resolves to no row, `add_flight` reports the reference error
and returns the store unchanged — no insert. -/
theorem C5_add_flight_reference_not_found (db : DB)
    (fno org dst rg dep arr st gt tk : String)
    (htickets : pyStrip tk = "" ∨ pyInt (pyStrip tk) ≠ none)
    (hmiss :
      db.destination.find? (fun r => r.iata_code == pyUpper (pyStrip org)) = none ∨
      db.destination.find? (fun r => r.iata_code == pyUpper (pyStrip dst)) = none ∨
      db.aircraft.find? (fun r => r.registration == pyUpper (pyStrip rg)) = none) :
    add_flight db fno org dst rg dep arr st gt tk = Except.ok (db, AddOutcome.refNotFound) := by
  have htick : ∃ t, (if pyStrip tk = "" then some (0 : Int) else pyInt (pyStrip tk)) = some t := by
    by_cases he : pyStrip tk = ""
    · exact ⟨0, by simp [he]⟩
    · rcases htickets with h | h
      · exact absurd h he
      · obtain ⟨t, ht⟩ := Option.ne_none_iff_exists'.mp h
        exact ⟨t, by simp [he, ht]⟩
  obtain ⟨t, ht⟩ := htick
  simp only [add_flight, ht]
  rcases h1 : db.destination.find? (fun r => r.iata_code == pyUpper (pyStrip org)) with _ | o
  · rw [h1]
  · rcases h2 : db.destination.find? (fun r => r.iata_code == pyUpper (pyStrip dst)) with _ | d
    · rw [h1, h2]
    · rcases h3 : db.aircraft.find? (fun r => r.registration == pyUpper (pyStrip rg)) with _ | a
      · rw [h1, h2, h3]
      · rcases hmiss with h | h | h
        · rw [h1] at h; exact Option.noConfusion h
        · rw [h2] at h; exact Option.noConfusion h
        · rw [h3] at h; exact Option.noConfusion h

/-- C5 witness: adding a flight whose aircraft registration is absent from
the store is rejected with the store unchanged. -/
theorem C5_witness :
    add_flight db0 "AX999" "LHR" "CDG" "G-AX01" "2026-02-03 06:00" "2026-02-03 08:00"
      "" "A1" "0" = Except.ok (db0, AddOutcome.refNotFound) :=
  C5_add_flight_reference_not_found db0 "AX999" "LHR" "CDG" "G-AX01" "2026-02-03 06:00"
    "2026-02-03 08:00" "" "A1" "0" (Or.inr (by decide)) (Or.inr (Or.inr (by decide)))

/-- C6 counterexample: a non-numeric flight identifier is NOT rejected by
`update_flight_status` or `delete_flight` — both run their statement (which
matches no row) and report plain success, contradicting the claim that every
flight-id mutation detects and reports the invalid identifier. -/
theorem C6_counterexample_nonnumeric_id_reported_ok :
    update_flight_status db0 "abc" "Delayed" = (db0, UpdOutcome.ok) ∧
      delete_flight db0 "abc" "YES" = (db0, DelOutcome.ok) := by decide

/-- C6 (amended): only `assign_pilot_to_flight` rejects a non-numeric flight
identifier before touching the store; `update_flight_status` and
`delete_flight` issue their statement with the raw text, which — when that
text is not a well-formed SQLite numeric literal — matches no integer key,
leaving the store unchanged but reporting success. -/
theorem C6_amended_nonnumeric_id_behaviour (db : DB) (fid st confirm lic role : String)
    (hnum : sqliteTextToNum (pyStrip fid) = none)
    (hst : ¬pyStrip st = "")
    (hconf : pyUpper (pyStrip confirm) = "YES") :
    update_flight_status db fid st = (db, UpdOutcome.ok) ∧
      delete_flight db fid confirm = (db, DelOutcome.ok) ∧
      assign_pilot_to_flight db fid lic role = (db, AssignOutcome.invalidId) := by
  have hm : ∀ n : Nat, textMatchesId (pyStrip fid) n = false := by
    intro n; simp [textMatchesId, hnum]
  refine ⟨?_, ?_, ?_⟩
  · simp only [update_flight_status, if_neg hst]
    rw [map_id_of_fixed _ db.flight fun a _ => by rw [hm a.flight_id]; rfl]
  · have : ¬pyUpper (pyStrip confirm) ≠ "YES" := by simp [hconf]
    simp only [delete_flight, if_neg this]
    rw [List.filter_eq_self.mpr fun a _ => by rw [hm a.flight_id]; rfl]
  · have hd : pyIsDigit (pyStrip fid) = false := pyIsDigit_false_of_sqlite_none hnum
    simp [assign_pilot_to_flight, hd]

/-- C6 witness for the amended claim, at the concrete identifier `12a`. -/
theorem C6_witness :
    update_flight_status db0 "12a" "Boarding" = (db0, UpdOutcome.ok) ∧
      delete_flight db0 "12a" " yes " = (db0, DelOutcome.ok) ∧
      assign_pilot_to_flight db0 "12a" "LIC-UK-1001" "Captain" = (db0, AssignOutcome.invalidId) :=
  C6_amended_nonnumeric_id_behaviour db0 "12a" "Boarding" " yes " "LIC-UK-1001" "Captain"
    (by decide) (by decide) (by decide)

/-- C7: assigning via a license number held only by inactive pilots is
rejected with the distinct pilot error before the insert; no assignment row
is produced. -/
theorem C7_inactive_pilot_assignment_rejected (db : DB) (fid lic role : String)
    (fl : FlightRow)
    (hdigit : pyIsDigit (pyStrip fid) = true)
    (hflight : db.flight.find? (fun f => textMatchesId (pyStrip fid) f.flight_id) = some fl)
    (hlic : ∀ p ∈ db.pilot, p.license_no = pyUpper (pyStrip lic) → p.active ≠ 1) :
    assign_pilot_to_flight db fid lic role = (db, AssignOutcome.pilotNotFoundOrInactive) := by
  have hpilot : db.pilot.find?
      (fun p => p.license_no == pyUpper (pyStrip lic) && p.active == 1) = none := by
    rw [List.find?_eq_none]
    intro p hp
    simp only [Bool.and_eq_true, beq_iff_eq, not_and]
    exact fun h1 h2 => hlic p hp h1 h2
  simp [assign_pilot_to_flight, hdigit, hflight, hpilot]

/-- C7 witness: license LIC-UK-1001 belongs to an inactive pilot; the
assignment is rejected and the store unchanged. -/
theorem C7_witness :
    assign_pilot_to_flight db0 "1" "LIC-UK-1001" "Captain" =
      (db0, AssignOutcome.pilotNotFoundOrInactive) :=
  C7_inactive_pilot_assignment_rejected db0 "1" "LIC-UK-1001" "Captain" f1
    (by decide) (by decide) (by decide)

/-- C8: with a valid flag, toggling a destination code matching no row
reports not-found (zero rows affected) and leaves the table unchanged, while
a code matching exactly one row reports success, keeps every other row
unchanged and sets that row's active flag. -/
theorem C8_destination_toggle_rowcount (db : DB) (iata_in active_in : String)
    (hflag : pyStrip active_in = "0" ∨ pyStrip active_in = "1") :
    (destRowcount db (pyUpper (pyStrip iata_in)) = 0 →
      update_destination_active db iata_in active_in = (db, DestOutcome.notFound)) ∧
    (destRowcount db (pyUpper (pyStrip iata_in)) = 1 →
      (update_destination_active db iata_in active_in).2 = DestOutcome.ok ∧
      ((update_destination_active db iata_in active_in).1).destination.length =
        db.destination.length ∧
      ∀ pr ∈ db.destination.zip
          ((update_destination_active db iata_in active_in).1).destination,
        (pr.1.iata_code ≠ pyUpper (pyStrip iata_in) → pr.2 = pr.1) ∧
        (pr.1.iata_code = pyUpper (pyStrip iata_in) →
          pr.2 = { pr.1 with active := if pyStrip active_in = "1" then 1 else 0 })) := by
  have hnot : ¬(pyStrip active_in ≠ "0" ∧ pyStrip active_in ≠ "1") := by
    rcases hflag with h | h <;> simp [h]
  constructor
  · intro h0
    have hm : ∀ r ∈ db.destination, (r.iata_code == pyUpper (pyStrip iata_in)) = false := by
      intro r hr
      have := List.countP_eq_zero.mp h0 r hr
      simpa using this
    simp only [update_destination_active, if_neg hnot, if_pos h0]
    rw [map_id_of_fixed _ db.destination fun a ha => by rw [hm a ha]; rfl]
  · intro h1
    have hne : ¬destRowcount db (pyUpper (pyStrip iata_in)) = 0 := by rw [h1]; simp
    have hup : update_destination_active db iata_in active_in =
        ({ db with destination := db.destination.map fun r =>
            if r.iata_code == pyUpper (pyStrip iata_in) then
              { r with active := if pyStrip active_in = "1" then 1 else 0 }
            else r }, DestOutcome.ok) := by
      simp only [update_destination_active, if_neg hnot, if_neg hne]
    refine ⟨by rw [hup], by rw [hup]; simp, ?_⟩
    rw [hup]
    simp only [zip_map_self]
    intro pr hpr
    rw [List.mem_map] at hpr
    obtain ⟨a, _, rfl⟩ := hpr
    constructor
    · intro hne2
      have hb : (a.iata_code == pyUpper (pyStrip iata_in)) = false := by
        simp only [beq_eq_false_iff_ne, ne_eq]
        simpa using hne2
      simp [hb]
    · intro heq
      have heq2 : a.iata_code = pyUpper (pyStrip iata_in) := by simpa using heq
      simp [heq2]

/-- C8 witness: toggling the absent code ZZZ with flag 1 reports not-found
and leaves the store unchanged. -/
theorem C8_witness :
    update_destination_active db0 "ZZZ" "1" = (db0, DestOutcome.notFound) :=
  (C8_destination_toggle_rowcount db0 "ZZZ" "1" (Or.inr (by decide))).1 (by decide)

/-- C9: a non-numeric tickets-sold entry in add-flight raises an uncaught
`ValueError` (`int(tickets_text)` sits outside any `try`), crashing the menu
loop — contradicting the claim that the only fatal condition is a missing
store file. -/
theorem C9_add_flight_crashes_on_nonnumeric_tickets :
    add_flight db0 "AX999" "LHR" "CDG" "G-AX01" "2026-02-03 06:00" "2026-02-03 08:00"
      "" "A1" "abc" = Except.error PyError.valueError := rfl

/-- C10: any confirmation whose stripped, upper-cased form is not exactly
`YES` cancels the delete: no statement is issued, every table unchanged. -/
theorem C10_delete_without_yes_is_noop (db : DB) (fid confirm : String)
    (h : pyUpper (pyStrip confirm) ≠ "YES") :
    delete_flight db fid confirm = (db, DelOutcome.cancelled) := by
  simp only [delete_flight, if_pos h]

/-- C10 witness: confirming with `maybe` cancels and leaves the store
unchanged. -/
theorem C10_witness :
    delete_flight db0 "1" "maybe" = (db0, DelOutcome.cancelled) :=
  C10_delete_without_yes_is_noop db0 "1" "maybe" (by decide)

end FlightDB
